import Mathlib

/-!
Verification of the advanced HTTPS OTA test harness
(`examples/system/ota/advanced_https_ota/pytest_advanced_ota.py`).

File contents are modelled as `List Nat` with byte values reduced modulo 256
exactly where the source masks with `& 0xFF` or packs with `struct.pack('B', ...)`.
Each definition embeds the Python function or inline test code named in its
doc comment.
-/

/-! ## Fault injector: header constants and mutations -/

/-- Header constant `HEADER_SIZE = 512` from `modify_chip_revision`. -/
def HEADER_SIZE : Nat := 512

/-- Header constant `TARGET_OFFSET_MIN_REV = 0x0F` from `modify_chip_revision`. -/
def TARGET_OFFSET_MIN_REV : Nat := 0x0F

/-- Header constant `TARGET_OFFSET_MAX_REV = 0x11` from `modify_chip_revision`. -/
def TARGET_OFFSET_MAX_REV : Nat := 0x11

/-- The valid image magic byte `0xE9`, named in the source comment of
`test_examples_protocol_advanced_https_ota_example_random`
("it may generate 0xE9 which will result in failure of testcase"). -/
def MAGIC_BYTE : Nat := 0xE9

/-- The `if increment_min: ... elif min_rev is not None: ...` branch of
`modify_chip_revision`, acting on the in-memory header bytes. -/
def apply_min_rev_edit (header : List Nat) (min_rev : Option Nat)
    (increment_min : Bool) : List Nat :=
  match increment_min, min_rev with
  | true, _ =>
    header.set TARGET_OFFSET_MIN_REV ((header.getD TARGET_OFFSET_MIN_REV 0 + 1) % 256)
  | false, some v => header.set TARGET_OFFSET_MIN_REV (v % 256)
  | false, none => header

/-- The `if max_rev is not None: ...` branch of `modify_chip_revision`. -/
def apply_max_rev_edit (header : List Nat) (max_rev : Option Nat) : List Nat :=
  match max_rev with
  | some v => header.set TARGET_OFFSET_MAX_REV (v % 256)
  | none => header

/-- Embedding of `modify_chip_revision(app_path, min_rev, max_rev, increment_min)`:
reads the first `HEADER_SIZE` bytes, increments or sets the byte at
`TARGET_OFFSET_MIN_REV` (increment wins over set), optionally sets the byte at
`TARGET_OFFSET_MAX_REV`, and writes the header back in place over the start of
the file (`open(app_path, 'r+b')` then `f.write(header)`), leaving the
remainder of the file untouched. -/
def modify_chip_revision (src : List Nat) (min_rev max_rev : Option Nat)
    (increment_min : Bool) : List Nat :=
  apply_max_rev_edit (apply_min_rev_edit (src.take HEADER_SIZE) min_rev increment_min)
      max_rev ++ src.drop HEADER_SIZE

/-- Result of a file-producing mutation: the bytes of the new output file and
the bytes of the source file after the operation completes. -/
structure MutationResult where
  output : List Nat
  source_after : List Nat
deriving DecidableEq

/-- Embedding of the truncation mutation used by
`test_examples_protocol_advanced_https_ota_example_truncated_bin` and
`..._truncated_header`: `output_file.write(f.read(truncated_bin_size))`.
The source is opened only for reading, so it is returned unchanged. -/
def truncate_bin (src : List Nat) (truncated_bin_size : Nat) : MutationResult :=
  { output := src.take truncated_bin_size, source_after := src }

/-- Embedding of the chip-id mutation in
`test_examples_protocol_advanced_https_ota_example_invalid_chip_id`:
`data = list(f.read(random_bin_size)); data[13] = 0xFE` written to a new file.
The call site uses `random_bin_size = 2000`. -/
def invalid_chip_id_bin (src : List Nat) (random_bin_size : Nat) : List Nat :=
  (src.take random_bin_size).set 13 0xFE

/-- Embedding of the security-version downgrade in
`test_examples_protocol_advanced_https_ota_example_anti_rollback`: the full
source (`f.read(file_size)` with `file_size = os.path.getsize(binary_file)`)
is copied to a new file, then `seek(36)` and a single byte `\x00` is written. -/
def make_lower_sec_version_bin (src : List Nat) : List Nat :=
  (src.take src.length).set 36 0

/-- Embedding of Python `random.randrange(lo, hi, step)`: a uniformly random
element of `lo, lo+step, ...` strictly below `hi`, here indexed by a seed. -/
def randrange (lo hi step seed : Nat) : Nat :=
  lo + (seed % ((hi - lo + step - 1) / step)) * step

/-- Embedding of the random-corruption generation in
`test_examples_protocol_advanced_https_ota_example_random`: writes one zero
byte (`struct.pack('B', 0)`), then `random_bin_size - 1` bytes each produced by
`random.randrange(0, 255, 1)`; `seeds` supplies the random draws. -/
def make_random_bin (random_bin_size : Nat) (seeds : Nat → Nat) : List Nat :=
  [0] ++ (List.range (random_bin_size - 1)).map (fun i => randrange 0 255 1 (seeds i))

/-- Embedding of Python `random.randint(a, b)` (both endpoints included),
indexed by a seed. -/
def randint (a b seed : Nat) : Nat := a + seed % (b - a + 1)

/-! ## Helper lemmas about the header edits -/

theorem apply_min_rev_edit_length (header : List Nat) (min_rev : Option Nat)
    (increment_min : Bool) :
    (apply_min_rev_edit header min_rev increment_min).length = header.length := by
  cases increment_min <;> cases min_rev <;> simp [apply_min_rev_edit]

theorem apply_max_rev_edit_length (header : List Nat) (max_rev : Option Nat) :
    (apply_max_rev_edit header max_rev).length = header.length := by
  cases max_rev <;> simp [apply_max_rev_edit]

theorem apply_min_rev_edit_getElem?_ne (header : List Nat) (min_rev : Option Nat)
    (increment_min : Bool) (i : Nat) (hi : i ≠ TARGET_OFFSET_MIN_REV) :
    (apply_min_rev_edit header min_rev increment_min)[i]? = header[i]? := by
  cases increment_min <;> cases min_rev <;> simp only [apply_min_rev_edit] <;>
    first
      | rfl
      | exact List.getElem?_set_ne (Ne.symm hi)

theorem apply_max_rev_edit_getElem?_ne (header : List Nat) (max_rev : Option Nat)
    (i : Nat) (hi : i ≠ TARGET_OFFSET_MAX_REV) :
    (apply_max_rev_edit header max_rev)[i]? = header[i]? := by
  cases max_rev <;> simp only [apply_max_rev_edit] <;>
    first
      | rfl
      | exact List.getElem?_set_ne (Ne.symm hi)

theorem apply_min_rev_edit_inc_getElem? (header : List Nat) (min_rev : Option Nat)
    (hlt : TARGET_OFFSET_MIN_REV < header.length) :
    (apply_min_rev_edit header min_rev true)[TARGET_OFFSET_MIN_REV]? =
      some ((header.getD TARGET_OFFSET_MIN_REV 0 + 1) % 256) := by
  cases min_rev <;> simp only [apply_min_rev_edit] <;>
    exact List.getElem?_set_eq_of_lt _ hlt

theorem apply_min_rev_edit_set_getElem? (header : List Nat) (v : Nat)
    (hlt : TARGET_OFFSET_MIN_REV < header.length) :
    (apply_min_rev_edit header (some v) false)[TARGET_OFFSET_MIN_REV]? =
      some (v % 256) := by
  simp only [apply_min_rev_edit]
  exact List.getElem?_set_eq_of_lt _ hlt

theorem modify_chip_revision_length (src : List Nat) (min_rev max_rev : Option Nat)
    (increment_min : Bool) :
    (modify_chip_revision src min_rev max_rev increment_min).length = src.length := by
  unfold modify_chip_revision
  rw [List.length_append, apply_max_rev_edit_length, apply_min_rev_edit_length,
    List.length_take, List.length_drop]
  omega

theorem modify_chip_revision_frame (src : List Nat) (min_rev max_rev : Option Nat)
    (increment_min : Bool) (i : Nat)
    (hmin : i ≠ TARGET_OFFSET_MIN_REV) (hmax : i ≠ TARGET_OFFSET_MAX_REV) :
    (modify_chip_revision src min_rev max_rev increment_min)[i]? = src[i]? := by
  unfold modify_chip_revision
  have hlen : (apply_max_rev_edit
      (apply_min_rev_edit (src.take HEADER_SIZE) min_rev increment_min) max_rev).length =
      min HEADER_SIZE src.length := by
    rw [apply_max_rev_edit_length, apply_min_rev_edit_length, List.length_take]
  by_cases hlt : i < min HEADER_SIZE src.length
  · rw [List.getElem?_append_left (by omega : i < _),
      apply_max_rev_edit_getElem?_ne _ _ _ hmax,
      apply_min_rev_edit_getElem?_ne _ _ _ _ hmin]
    exact List.getElem?_take_of_lt (by omega)
  · rw [List.getElem?_append_right (by omega : _ ≤ i), hlen, List.getElem?_drop]
    by_cases hsrc : i < src.length
    · congr 1
      omega
    · rw [List.getElem?_eq_none (by omega), List.getElem?_eq_none (by omega)]

theorem modify_chip_revision_min_inc (src : List Nat) (min_rev max_rev : Option Nat)
    (h : TARGET_OFFSET_MIN_REV < src.length) :
    (modify_chip_revision src min_rev max_rev true).getD TARGET_OFFSET_MIN_REV 0 =
      (src.getD TARGET_OFFSET_MIN_REV 0 + 1) % 256 := by
  have h15 : TARGET_OFFSET_MIN_REV < HEADER_SIZE := by decide
  have hlt : TARGET_OFFSET_MIN_REV < (src.take HEADER_SIZE).length := by
    rw [List.length_take]; omega
  have htake : (src.take HEADER_SIZE)[TARGET_OFFSET_MIN_REV]? =
      src[TARGET_OFFSET_MIN_REV]? := List.getElem?_take_of_lt h15
  unfold modify_chip_revision
  rw [List.getD_eq_getElem?_getD,
    List.getElem?_append_left (by
      rw [apply_max_rev_edit_length, apply_min_rev_edit_length]; exact hlt),
    apply_max_rev_edit_getElem?_ne _ _ _ (by decide),
    apply_min_rev_edit_inc_getElem? _ _ hlt]
  rw [List.getD_eq_getElem?_getD, List.getD_eq_getElem?_getD, htake]
  rfl

theorem modify_chip_revision_min_set (src : List Nat) (max_rev : Option Nat) (v : Nat)
    (h : TARGET_OFFSET_MIN_REV < src.length) :
    (modify_chip_revision src (some v) max_rev false).getD TARGET_OFFSET_MIN_REV 0 =
      v % 256 := by
  have h15 : TARGET_OFFSET_MIN_REV < HEADER_SIZE := by decide
  have hlt : TARGET_OFFSET_MIN_REV < (src.take HEADER_SIZE).length := by
    rw [List.length_take]; omega
  unfold modify_chip_revision
  rw [List.getD_eq_getElem?_getD,
    List.getElem?_append_left (by
      rw [apply_max_rev_edit_length, apply_min_rev_edit_length]; exact hlt),
    apply_max_rev_edit_getElem?_ne _ _ _ (by decide),
    apply_min_rev_edit_set_getElem? _ _ hlt]
  rfl

/-! ## Network service set: HTTPS request handler (`https_request_handler`) -/

/-- Outcome of a handler method: normal return or a propagated `socket.error`. -/
inductive HandlerOutcome where
  | ok : HandlerOutcome
  | socketError : HandlerOutcome
deriving DecidableEq

/-- Which low-level stream operations raise `socket.error` while one request is
handled, and whether `self.wfile.closed` is already true when `finish` runs. -/
structure StreamFaults where
  wfile_closed : Bool
  wfile_flush_error : Bool
  wfile_close_error : Bool
  rfile_close_error : Bool
  base_handle_error : Bool
deriving DecidableEq

/-- The `except socket.error: pass` clause: a socket error from the guarded
block is discarded, any other outcome passes through. -/
def swallowSocketError : HandlerOutcome → HandlerOutcome
  | HandlerOutcome.socketError => HandlerOutcome.ok
  | o => o

/-- The body of the `try` block in `RequestHandler.finish`:
`if not self.wfile.closed: self.wfile.flush(); self.wfile.close()`. -/
def finish_try_block (f : StreamFaults) : HandlerOutcome :=
  match f.wfile_closed with
  | true => HandlerOutcome.ok
  | false =>
    match f.wfile_flush_error with
    | true => HandlerOutcome.socketError
    | false =>
      match f.wfile_close_error with
      | true => HandlerOutcome.socketError
      | false => HandlerOutcome.ok

/-- Embedding of `RequestHandler.finish` from `https_request_handler`: the
wfile flush/close block is guarded by `except socket.error: pass`, then
`self.rfile.close()` runs outside any guard. -/
def RequestHandler_finish (f : StreamFaults) : HandlerOutcome :=
  match swallowSocketError (finish_try_block f) with
  | HandlerOutcome.ok =>
    match f.rfile_close_error with
    | true => HandlerOutcome.socketError
    | false => HandlerOutcome.ok
  | e => e

/-- The call `RangeRequestHandler.handle(self)` inside `RequestHandler.handle`,
tracked only for whether it raises `socket.error`. -/
def base_handle (f : StreamFaults) : HandlerOutcome :=
  match f.base_handle_error with
  | true => HandlerOutcome.socketError
  | false => HandlerOutcome.ok

/-- Embedding of `RequestHandler.handle` from `https_request_handler`:
`try: RangeRequestHandler.handle(self) except socket.error: pass`. -/
def RequestHandler_handle (f : StreamFaults) : HandlerOutcome :=
  swallowSocketError (base_handle f)

/-! ## Network service set: redirect server -/

/-- An HTTP response as assembled by `send_response` / `send_header` /
`end_headers`, together with any body bytes written afterwards. -/
structure RedirectResponse where
  status : Nat
  location : Option String
  bodyBytes : List Nat
deriving DecidableEq

/-- Embedding of `RedirectHandler.do_GET` from `redirect_handler_factory(url)`:
`send_response(301)`, `send_header('Location', url)`, `end_headers()`, and no
body is ever written. -/
def RedirectHandler_do_GET (url : String) : RedirectResponse :=
  { status := 301, location := some url, bodyBytes := [] }

/-- Observable configuration of the server built by `start_redirect_server`. -/
structure RedirectServerModel where
  tlsWrapped : Bool
  redirectUrl : String
deriving DecidableEq

/-- The redirect target constructed in `start_redirect_server`:
`'https://' + server_ip + ':' + str(redirection_port) + '/advanced_https_ota.bin'`. -/
def redirect_target_url (server_ip : String) (redirection_port : Nat) : String :=
  "https://" ++ server_ip ++ ":" ++ toString redirection_port ++ "/advanced_https_ota.bin"

/-- Embedding of `start_redirect_server(ota_image_dir, server_ip, server_port,
redirection_port)`: installs the redirect handler for the target URL and wraps
the listening socket with `ssl_context.wrap_socket(..., server_side=True)`
after loading the server certificate and key, so the endpoint speaks TLS. -/
def start_redirect_server (server_ip : String) (server_port redirection_port : Nat) :
    RedirectServerModel :=
  { tlsWrapped := true,
    redirectUrl := redirect_target_url server_ip redirection_port }

/-! ## Scenario runner: service lifecycle on every exit path

Each scenario is modelled as the actions before its `try:` block, the actions
of the `try` body, and the actions of the `finally` block. An action either
starts a server process (binding a Python variable to a fresh instance),
terminates the instance currently bound to a variable, or is a fallible
coordinator step (`dut.expect`, `dut.write`, `get_host_ip4_by_dest_ip`,
`time.sleep`, `erase_partition`, ...) that may raise. An exit path is either
the normal run or the run aborted at one fallible action; aborting before the
`try` block skips the `finally` block, aborting inside the body still runs it. -/

/-- One orchestration action; `step` labels carry source line numbers. -/
inductive Act where
  | start : Nat → Nat → Act
  | stop : Nat → Act
  | step : Nat → Act
deriving DecidableEq

/-- Which instances have been started and stopped, and which instance each
Python variable currently names. -/
structure LifecycleSt where
  env : List (Nat × Nat)
  started : List Nat
  stopped : List Nat
deriving DecidableEq

def initLifecycle : LifecycleSt := ⟨[], [], []⟩

/-- Latest binding of a variable (later `thread1 = ...` assignments shadow). -/
def lookupVar (env : List (Nat × Nat)) (v : Nat) : Option Nat :=
  match env.find? (fun p => p.fst == v) with
  | some p => some p.snd
  | none => none

/-- Effect of one action: `start v i` spawns instance `i` and binds variable
`v` to it; `stop v` terminates the instance `v` currently names (a no-op on an
unbound variable); a `step` changes no service state. -/
def execAct (s : LifecycleSt) : Act → LifecycleSt
  | Act.start v i =>
    { env := (v, i) :: s.env, started := i :: s.started, stopped := s.stopped }
  | Act.stop v =>
    match lookupVar s.env v with
    | some i => { s with stopped := i :: s.stopped }
    | none => s
  | Act.step _ => s

def execActs (l : List Act) (s : LifecycleSt) : LifecycleSt := l.foldl execAct s

/-- An exception can surface at a `step` (expect timeout, write failure,
interrupted sleep, ...) or at a `start` (the spawn fails before the process
runs); `terminate` on a process is treated as non-raising. -/
def fallible : Act → Bool
  | Act.stop _ => false
  | _ => true

def abortPositions (l : List Act) : List Nat :=
  (List.range l.length).filter (fun k =>
    match l.get? k with
    | some a => fallible a
    | none => false)

/-- A scenario body split around its `try:` / `finally:` structure. -/
structure Scenario where
  before_try : List Act
  body : List Act
  cleanup : List Act

/-- Every reachable final lifecycle state of a scenario: abort at any fallible
action before the `try` (the `finally` block never runs), abort at any
fallible action of the body (the `finally` block still runs), or complete
normally. -/
def exitStates (sc : Scenario) : List LifecycleSt :=
  (abortPositions sc.before_try).map
      (fun k => execActs (sc.before_try.take k) initLifecycle) ++
    (abortPositions sc.body).map
      (fun k => execActs sc.cleanup
        (execActs (sc.body.take k) (execActs sc.before_try initLifecycle))) ++
    [execActs sc.cleanup (execActs sc.body (execActs sc.before_try initLifecycle))]

/-- Every started instance was terminated. -/
def cleanedUp (s : LifecycleSt) : Bool :=
  s.started.all (fun i => s.stopped.contains i)

/-- `test_examples_protocol_advanced_https_ota_example` (lines 179-212):
one server started just before the `try`, a three-iteration expect/write loop
inside it, `thread1.terminate()` in the `finally`. -/
def basic_scenario : Scenario :=
  { before_try := [Act.start 1 1],
    body :=
      [Act.step 199, Act.step 201, Act.step 205, Act.step 206, Act.step 209,
        Act.step 210] ++
      [Act.step 199, Act.step 201, Act.step 205, Act.step 206, Act.step 209,
        Act.step 210] ++
      [Act.step 199, Act.step 201, Act.step 205, Act.step 206, Act.step 209,
        Act.step 210],
    cleanup := [Act.stop 1] }

/-- `test_examples_protocol_advanced_https_ota_example_ota_resumption`
(lines 218-281): erase NVS, start instance 1, then inside the `try`: expects
and writes, the random-delay restart (sleep, hard reset), an explicit
`thread1.terminate()`, a fresh instance 2 rebinding `thread1`, more expects,
and `thread1.terminate()` in the `finally`. -/
def ota_resumption_scenario : Scenario :=
  { before_try := [Act.step 231, Act.start 1 1],
    body :=
      [Act.step 239, Act.step 242, Act.step 247, Act.step 248, Act.step 251,
        Act.step 252, Act.step 40, Act.step 41, Act.stop 1, Act.start 1 2,
        Act.step 263, Act.step 266, Act.step 271, Act.step 272, Act.step 275,
        Act.step 276, Act.step 278],
    cleanup := [Act.stop 1] }

/-- `test_examples_protocol_advanced_https_ota_example_redirect_url`
(lines 529-584): expects and host lookup first, then three servers started and
a `time.sleep(1)` all before the `try`, the write and final expects inside it,
and three terminates in the `finally`. -/
def redirect_url_scenario : Scenario :=
  { before_try :=
      [Act.step 546, Act.step 548, Act.step 552, Act.step 555,
        Act.start 1 1, Act.start 2 2, Act.start 3 3, Act.step 570],
    body := [Act.step 576, Act.step 577, Act.step 579, Act.step 580],
    cleanup := [Act.stop 1, Act.stop 2, Act.stop 3] }

/-! ## Expectation sequencer: the resumption scenario as an ordered event trace -/

/-- One observable coordinator event: erase a partition, start or terminate a
server instance on a host and port, wait for a marker with a timeout, write a
line to the device, sleep, or hard-reset the device. -/
inductive Ev where
  | erasePart : String → Ev
  | startService : Nat → String → Nat → Ev
  | stopService : Nat → Ev
  | expectMarker : String → Nat → Ev
  | writeLine : String → Ev
  | sleep : Nat → Ev
  | hardReset : Ev
deriving DecidableEq

/-- Embedding of `restart_device_with_random_delay(dut, min_delay, max_delay)`:
`delay = random.randint(min_delay, max_delay)`, `time.sleep(delay)`, then
`dut.serial.hard_reset()`. -/
def restart_device_with_random_delay (min_delay max_delay seed : Nat) : List Ev :=
  [Ev.sleep (randint min_delay max_delay seed), Ev.hardReset]

/-- The OTA request URL written to the device:
`'https://' + host_ip + ':' + str(server_port) + '/' + bin_name`. -/
def ota_url (host_ip : String) (server_port : Nat) (bin_name : String) : String :=
  "https://" ++ host_ip ++ ":" ++ toString server_port ++ "/" ++ bin_name

/-- The ordered event trace of the happy path of
`test_examples_protocol_advanced_https_ota_example_ota_resumption`
(lines 218-281).  The capturing IPv4 regular expression is abbreviated to its
literal head; `seed` indexes the one random draw of the scenario. -/
def ota_resumption_events (host_ip : String) (seed : Nat) : List Ev :=
  [Ev.erasePart "nvs",
    Ev.startService 1 "0.0.0.0" 8001,
    Ev.expectMarker "Loaded app from partition at offset" 30,
    Ev.expectMarker "IPv4 address:" 30,
    Ev.expectMarker "Starting Advanced OTA example" 30,
    Ev.writeLine (ota_url host_ip 8001 "advanced_https_ota.bin"),
    Ev.expectMarker "Starting OTA..." 60] ++
  restart_device_with_random_delay 5 15 seed ++
  [Ev.stopService 1,
    Ev.startService 2 "0.0.0.0" 8001,
    Ev.expectMarker "Loaded app from partition at offset" 180,
    Ev.expectMarker "IPv4 address:" 30,
    Ev.expectMarker "Starting Advanced OTA example" 30,
    Ev.writeLine (ota_url host_ip 8001 "advanced_https_ota.bin"),
    Ev.expectMarker "Starting OTA..." 60,
    Ev.expectMarker "upgrade successful. Rebooting ..." 150,
    Ev.stopService 2]

/-! ## Anti-rollback scenario markers -/

/-- The rejection marker expected at line 654 of the anti-rollback scenario. -/
def anti_rollback_expected_marker : String :=
  "New firmware security version is less than eFuse programmed, 0 < 1"

/-- Modelled from the spec: the eFuse-committed security version of the device
is 1 while the served original image carries `secure_version=1` (source
comment at line 640); the eFuse state itself lives on the device, outside this
repository. -/
def committed_sec_version : Nat := 1

/-! ## Claim theorems -/

/-- C5: the increment operation on the minimum-hardware-revision header byte
is arithmetic modulo 256: for every starting value, `modify_chip_revision`
with `increment_min` stores `(v + 1) % 256` at `TARGET_OFFSET_MIN_REV`; in
particular incrementing 255 yields 0 (see the witness). -/
theorem min_rev_increment_is_mod_256 (src : List Nat) (min_rev max_rev : Option Nat)
    (h : TARGET_OFFSET_MIN_REV < src.length) :
    (modify_chip_revision src min_rev max_rev true).getD TARGET_OFFSET_MIN_REV 0 =
      (src.getD TARGET_OFFSET_MIN_REV 0 + 1) % 256 :=
  modify_chip_revision_min_inc src min_rev max_rev h

/-- Witness for C5: on a header whose minimum-revision byte is 255, the
increment stores 0. -/
theorem min_rev_increment_is_mod_256_witness :
    TARGET_OFFSET_MIN_REV < (List.replicate 18 255).length ∧
      (modify_chip_revision (List.replicate 18 255) none none true).getD
        TARGET_OFFSET_MIN_REV 0 = 0 := by
  refine ⟨by decide, ?_⟩
  rw [min_rev_increment_is_mod_256 (List.replicate 18 255) none none (by decide)]
  decide

/-- C10: when `increment_min` is true, a simultaneously supplied `min_rev`
argument is ignored: the result is identical to the call without `min_rev` and
the minimum-revision byte is incremented modulo 256, not set; the set
operation applies only when `increment_min` is false. -/
theorem increment_min_overrides_min_rev (src : List Nat) (v : Nat)
    (max_rev : Option Nat) (h : TARGET_OFFSET_MIN_REV < src.length) :
    modify_chip_revision src (some v) max_rev true =
        modify_chip_revision src none max_rev true ∧
      (modify_chip_revision src (some v) max_rev true).getD TARGET_OFFSET_MIN_REV 0 =
        (src.getD TARGET_OFFSET_MIN_REV 0 + 1) % 256 ∧
      (modify_chip_revision src (some v) max_rev false).getD TARGET_OFFSET_MIN_REV 0 =
        v % 256 :=
  ⟨rfl, modify_chip_revision_min_inc src (some v) max_rev h,
    modify_chip_revision_min_set src max_rev v h⟩

/-- Witness for C10: on a concrete 18-byte header with `min_rev = 9` supplied
alongside `increment_min`, the stored byte is the incremented original, not 9. -/
theorem increment_min_overrides_min_rev_witness :
    TARGET_OFFSET_MIN_REV < (List.replicate 18 3).length ∧
      (modify_chip_revision (List.replicate 18 3) (some 9) none true =
          modify_chip_revision (List.replicate 18 3) none none true ∧
        (modify_chip_revision (List.replicate 18 3) (some 9) none true).getD
          TARGET_OFFSET_MIN_REV 0 =
          ((List.replicate 18 3).getD TARGET_OFFSET_MIN_REV 0 + 1) % 256 ∧
        (modify_chip_revision (List.replicate 18 3) (some 9) none false).getD
          TARGET_OFFSET_MIN_REV 0 = 9 % 256) :=
  ⟨by decide, increment_min_overrides_min_rev (List.replicate 18 3) 9 none (by decide)⟩

/-- C6: for every truncation length not exceeding the source length, the
truncation mutation produces a file that is exactly the first
`truncated_bin_size` bytes of the source, byte for byte, and leaves the source
unchanged. -/
theorem truncate_bin_exact (src : List Nat) (n : Nat) (h : n ≤ src.length) :
    (truncate_bin src n).output.length = n ∧
      (∀ i, i < n → (truncate_bin src n).output.getD i 0 = src.getD i 0) ∧
      (truncate_bin src n).source_after = src := by
  refine ⟨?_, ?_, rfl⟩
  · simp only [truncate_bin, List.length_take]
    omega
  · intro i hi
    simp only [truncate_bin, List.getD_eq_getElem?_getD, List.getElem?_take_of_lt hi]

/-- Witness for C6: truncating a concrete 5-byte file to 3 bytes. -/
theorem truncate_bin_exact_witness :
    3 ≤ ([10, 20, 30, 40, 50] : List Nat).length ∧
      ((truncate_bin [10, 20, 30, 40, 50] 3).output.length = 3 ∧
        (∀ i, i < 3 → (truncate_bin [10, 20, 30, 40, 50] 3).output.getD i 0 =
          ([10, 20, 30, 40, 50] : List Nat).getD i 0) ∧
        (truncate_bin [10, 20, 30, 40, 50] 3).source_after = [10, 20, 30, 40, 50]) :=
  ⟨by decide, truncate_bin_exact [10, 20, 30, 40, 50] 3 (by decide)⟩

/-- C7: the security-version downgrade copies the full source and overwrites
exactly the byte at offset 36 with 0, a version lower than the committed one,
and the scenario's expected rejection marker contains `0 < 1`. -/
theorem lower_sec_version_downgrade (src : List Nat) (h : 36 < src.length) :
    (make_lower_sec_version_bin src).length = src.length ∧
      (make_lower_sec_version_bin src).getD 36 0 = 0 ∧
      (∀ i, i ≠ 36 → (make_lower_sec_version_bin src).getD i 0 = src.getD i 0) ∧
      (make_lower_sec_version_bin src).getD 36 0 < committed_sec_version ∧
      anti_rollback_expected_marker =
        "New firmware security version is less than eFuse programmed, " ++ "0 < 1" := by
  have hset : make_lower_sec_version_bin src = src.set 36 0 := by
    simp [make_lower_sec_version_bin, List.take_length]
  have h36 : (make_lower_sec_version_bin src).getD 36 0 = 0 := by
    rw [hset, List.getD_eq_getElem?_getD, List.getElem?_set_eq_of_lt _ h]
    rfl
  refine ⟨?_, h36, ?_, ?_, rfl⟩
  · rw [hset, List.length_set]
  · intro i hi
    rw [hset, List.getD_eq_getElem?_getD, List.getElem?_set_ne (Ne.symm hi),
      List.getD_eq_getElem?_getD]
  · rw [h36]
    decide

/-- Witness for C7: the downgrade applied to a concrete 40-byte file. -/
theorem lower_sec_version_downgrade_witness :
    36 < (List.replicate 40 9).length ∧
      ((make_lower_sec_version_bin (List.replicate 40 9)).length =
          (List.replicate 40 9).length ∧
        (make_lower_sec_version_bin (List.replicate 40 9)).getD 36 0 = 0 ∧
        (∀ i, i ≠ 36 → (make_lower_sec_version_bin (List.replicate 40 9)).getD i 0 =
          (List.replicate 40 9).getD i 0) ∧
        (make_lower_sec_version_bin (List.replicate 40 9)).getD 36 0 <
          committed_sec_version ∧
        anti_rollback_expected_marker =
          "New firmware security version is less than eFuse programmed, " ++ "0 < 1") :=
  ⟨by decide, lower_sec_version_downgrade (List.replicate 40 9) (by decide)⟩

/-- C1 counterexample: the truncation mutation of the truncated-header
scenario (`truncated_bin_size = 180`) applied to a 512-byte source produces an
artifact whose length differs from the source length, refuting the claim that
every mutation preserves the artifact length. -/
theorem truncation_changes_length :
    ¬ ((truncate_bin (List.replicate 512 7) 180).output.length =
        (List.replicate 512 7).length) := by
  simp only [truncate_bin, List.length_take, List.length_replicate]
  omega

/-- C1 amended: every mutation agrees with the source byte for byte at each
offset outside its touched offsets that its output retains; the
revision-header edit and the security-version overwrite preserve the length,
truncation and the chip-id overwrite keep exactly the first
`truncated_bin_size` (resp. `random_bin_size`) bytes, and the random
corruption writes a fresh file of exactly `random_bin_size` bytes touching
every offset. -/
theorem mutation_frame_effects :
    (∀ (src : List Nat) (min_rev max_rev : Option Nat) (increment_min : Bool),
        (modify_chip_revision src min_rev max_rev increment_min).length = src.length ∧
        ∀ i, i ≠ TARGET_OFFSET_MIN_REV → i ≠ TARGET_OFFSET_MAX_REV →
          (modify_chip_revision src min_rev max_rev increment_min).getD i 0 =
            src.getD i 0) ∧
      (∀ (src : List Nat) (n : Nat),
        (truncate_bin src n).output.length = min n src.length ∧
        ∀ i, i < n → (truncate_bin src n).output.getD i 0 = src.getD i 0) ∧
      (∀ (src : List Nat) (n : Nat),
        (invalid_chip_id_bin src n).length = min n src.length ∧
        ∀ i, i ≠ 13 → i < n → (invalid_chip_id_bin src n).getD i 0 = src.getD i 0) ∧
      (∀ src : List Nat,
        (make_lower_sec_version_bin src).length = src.length ∧
        ∀ i, i ≠ 36 → (make_lower_sec_version_bin src).getD i 0 = src.getD i 0) ∧
      (∀ (size : Nat) (seeds : Nat → Nat), 1 ≤ size →
        (make_random_bin size seeds).length = size) := by
  refine ⟨?_, ?_, ?_, ?_, ?_⟩
  · intro src min_rev max_rev increment_min
    refine ⟨modify_chip_revision_length src min_rev max_rev increment_min, ?_⟩
    intro i hmin hmax
    rw [List.getD_eq_getElem?_getD,
      modify_chip_revision_frame src min_rev max_rev increment_min i hmin hmax,
      List.getD_eq_getElem?_getD]
  · intro src n
    refine ⟨by simp [truncate_bin], ?_⟩
    intro i hi
    simp only [truncate_bin, List.getD_eq_getElem?_getD, List.getElem?_take_of_lt hi]
  · intro src n
    constructor
    · simp [invalid_chip_id_bin]
    · intro i h13 hi
      rw [invalid_chip_id_bin, List.getD_eq_getElem?_getD,
        List.getElem?_set_ne (Ne.symm h13), List.getElem?_take_of_lt hi,
        List.getD_eq_getElem?_getD]
  · intro src
    have hset : make_lower_sec_version_bin src = src.set 36 0 := by
      simp [make_lower_sec_version_bin, List.take_length]
    refine ⟨by rw [hset, List.length_set], ?_⟩
    intro i hi
    rw [hset, List.getD_eq_getElem?_getD, List.getElem?_set_ne (Ne.symm hi),
      List.getD_eq_getElem?_getD]
  · intro size seeds h
    simp only [make_random_bin, List.length_append, List.length_map,
      List.length_range, List.length_cons, List.length_nil]
    omega

/-- Witness for the amended C1: each mutation clause evaluated on a concrete
input, with every hypothesis discharged there. -/
theorem mutation_frame_effects_witness :
    ((modify_chip_revision [1, 2, 3] none none true).getD 0 0 =
        ([1, 2, 3] : List Nat).getD 0 0) ∧
      ((truncate_bin [1, 2, 3] 2).output.getD 1 0 = ([1, 2, 3] : List Nat).getD 1 0) ∧
      ((invalid_chip_id_bin [1, 2, 3] 2).getD 0 0 = ([1, 2, 3] : List Nat).getD 0 0) ∧
      ((make_lower_sec_version_bin [1, 2, 3]).getD 0 0 =
        ([1, 2, 3] : List Nat).getD 0 0) ∧
      (make_random_bin 4 (fun _ => 0)).length = 4 :=
  ⟨(mutation_frame_effects.1 [1, 2, 3] none none true).2 0 (by decide) (by decide),
    (mutation_frame_effects.2.1 [1, 2, 3] 2).2 1 (by decide),
    (mutation_frame_effects.2.2.1 [1, 2, 3] 2).2 0 (by decide) (by decide),
    (mutation_frame_effects.2.2.2.1 [1, 2, 3]).2 0 (by decide),
    mutation_frame_effects.2.2.2.2 4 (fun _ => 0) (by decide)⟩

theorem make_random_bin_getD_succ (size : Nat) (seeds : Nat → Nat) (j : Nat)
    (hj : j < size - 1) :
    (make_random_bin size seeds).getD (j + 1) 0 = seeds j % 255 := by
  have hr : randrange 0 255 1 (seeds j) = seeds j % 255 := by
    simp [randrange]
  simp only [make_random_bin, List.singleton_append, List.getD_eq_getElem?_getD,
    List.getElem?_cons_succ, List.getElem?_map, List.getElem?_range hj,
    Option.map_some', Option.getD_some, hr]

/-- C3 counterexample: no random draw can make a non-leading byte of the
corrupted file 255, because `random.randrange(0, 255, 1)` excludes its upper
bound; the remaining bytes are therefore not drawn from the full byte range. -/
theorem random_bin_byte_never_255 :
    ¬ ∃ seeds : Nat → Nat, (make_random_bin 32000 seeds).getD 1 0 = 255 := by
  rintro ⟨seeds, h⟩
  have h1 : (make_random_bin 32000 seeds).getD 1 0 = seeds 0 % 255 :=
    make_random_bin_getD_succ 32000 seeds 0 (by omega)
  have h2 : seeds 0 % 255 < 255 := Nat.mod_lt _ (by decide)
  omega

/-- C3 amended: the random-corruption mutation produces a file of exactly
`random_bin_size` bytes whose byte 0 is the fixed sentinel 0 (which cannot
collide with the valid magic byte `0xE9`), and whose remaining bytes are each
drawn uniformly at random from the byte range 0..254: every produced byte is
below 255 and every value below 255 is reachable by some draw. -/
theorem make_random_bin_spec (size : Nat) (seeds : Nat → Nat) (h : 1 ≤ size) :
    (make_random_bin size seeds).length = size ∧
      (make_random_bin size seeds).getD 0 0 = 0 ∧
      (make_random_bin size seeds).getD 0 0 ≠ MAGIC_BYTE ∧
      (∀ i, 1 ≤ i → i < size → (make_random_bin size seeds).getD i 0 < 255) ∧
      (∀ v, v < 255 → ∃ s, randrange 0 255 1 s = v) := by
  have h0 : (make_random_bin size seeds).getD 0 0 = 0 := rfl
  refine ⟨?_, h0, by rw [h0]; decide, ?_, ?_⟩
  · simp only [make_random_bin, List.length_append, List.length_map,
      List.length_range, List.length_cons, List.length_nil]
    omega
  · intro i h1 h2
    obtain ⟨j, rfl⟩ : ∃ j, i = j + 1 := ⟨i - 1, by omega⟩
    have hj : j < size - 1 := by omega
    rw [make_random_bin_getD_succ size seeds j hj]
    exact Nat.mod_lt _ (by decide)
  · intro v hv
    refine ⟨v, ?_⟩
    simp only [randrange]
    omega

/-- Witness for the amended C3: the 32000-byte corrupted file generated from
the all-zero seed stream. -/
theorem make_random_bin_spec_witness :
    1 ≤ 32000 ∧
      ((make_random_bin 32000 (fun _ => 0)).length = 32000 ∧
        (make_random_bin 32000 (fun _ => 0)).getD 0 0 = 0 ∧
        (make_random_bin 32000 (fun _ => 0)).getD 0 0 ≠ MAGIC_BYTE ∧
        (∀ i, 1 ≤ i → i < 32000 →
          (make_random_bin 32000 (fun _ => 0)).getD i 0 < 255) ∧
        (∀ v, v < 255 → ∃ s, randrange 0 255 1 s = v)) :=
  ⟨by decide, make_random_bin_spec 32000 (fun _ => 0) (by decide)⟩

/-- C4 counterexample: the redirect server of the redirect-URL scenario
(`server_port = 8081`, `redirection_port = 8082`) wraps its listening socket
in TLS, refuting the claim that it is a plaintext (non-TLS) endpoint. -/
theorem redirect_server_not_plaintext :
    ¬ ((start_redirect_server "0.0.0.0" 8081 8082).tlsWrapped = false) := by
  decide

/-- C4 amended: the redirect server is a TLS (HTTPS) endpoint that responds
to any GET request with the fixed HTTP redirect status 301 and a Location
header pointing at the second endpoint built from `redirection_port`, and
never writes file bytes. -/
theorem redirect_server_behavior (server_ip : String)
    (server_port redirection_port : Nat) :
    (start_redirect_server server_ip server_port redirection_port).tlsWrapped = true ∧
      (start_redirect_server server_ip server_port redirection_port).redirectUrl =
        redirect_target_url server_ip redirection_port ∧
      ∀ url, (RedirectHandler_do_GET url).status = 301 ∧
        (RedirectHandler_do_GET url).location = some url ∧
        (RedirectHandler_do_GET url).bodyBytes = [] :=
  ⟨rfl, rfl, fun _ => ⟨rfl, rfl, rfl⟩⟩

/-- C8 counterexample: a request whose input-stream close raises a socket
error propagates it out of `finish`, because `self.rfile.close()` runs outside
the `try` block; the handler does not swallow every stream-close socket
error. -/
theorem rfile_close_socket_error_propagates :
    RequestHandler_finish
        { wfile_closed := false, wfile_flush_error := false,
          wfile_close_error := false, rfile_close_error := true,
          base_handle_error := false } = HandlerOutcome.socketError := by
  decide

/-- C8 amended: `handle` swallows every socket error of the wrapped
`RangeRequestHandler.handle`, and `finish` swallows every socket error of the
output-stream flush/close; only a socket error raised by the input-stream
close at the end of `finish` propagates. -/
theorem handler_swallows_wfile_socket_errors (f : StreamFaults)
    (h : f.rfile_close_error = false) :
    RequestHandler_handle f = HandlerOutcome.ok ∧
      RequestHandler_finish f = HandlerOutcome.ok := by
  have hsw : ∀ o, swallowSocketError o = HandlerOutcome.ok := by
    intro o
    cases o <;> rfl
  constructor
  · rw [RequestHandler_handle, hsw]
  · rw [RequestHandler_finish, hsw, h]

/-- Witness for the amended C8: a request on which the wrapped handle, the
output-stream flush and the output-stream close all raise socket errors still
returns normally from both `handle` and `finish`. -/
theorem handler_swallows_wfile_socket_errors_witness :
    ({ wfile_closed := false, wfile_flush_error := true, wfile_close_error := true,
        rfile_close_error := false, base_handle_error := true
        : StreamFaults }).rfile_close_error = false ∧
      (RequestHandler_handle
          { wfile_closed := false, wfile_flush_error := true,
            wfile_close_error := true, rfile_close_error := false,
            base_handle_error := true } = HandlerOutcome.ok ∧
        RequestHandler_finish
          { wfile_closed := false, wfile_flush_error := true,
            wfile_close_error := true, rfile_close_error := false,
            base_handle_error := true } = HandlerOutcome.ok) :=
  ⟨rfl, handler_swallows_wfile_socket_errors _ rfl⟩

/-- C2: in the basic and resumption scenarios every started service instance
is terminated on every exit path, but the redirect-URL scenario has exit
paths that leave started services running: an exception at `thread2.start()`,
`thread3.start()` or the `time.sleep(1)` — all after `thread1.start()` and
before the `try` block — skips the `finally` teardown; aborting at the sleep
leaves instances 1, 2 and 3 started and none stopped. -/
theorem teardown_exit_path_analysis :
    (exitStates basic_scenario).all cleanedUp = true ∧
      (exitStates ota_resumption_scenario).all cleanedUp = true ∧
      (exitStates redirect_url_scenario).all cleanedUp = false ∧
      (execActs (redirect_url_scenario.before_try.take 7) initLifecycle).started =
        [3, 2, 1] ∧
      (execActs (redirect_url_scenario.before_try.take 7) initLifecycle).stopped =
        [] := by
  refine ⟨by decide, by decide, by decide, by decide, by decide⟩

/-- C9: in the resumption scenario the coordinator, after the "Starting OTA"
marker, sleeps a random delay in [5, 15], hard-resets the device, terminates
the first service instance, starts a fresh instance on the same address
`0.0.0.0:8001`, and later expects the "upgrade successful" marker. -/
theorem ota_resumption_ordered_trace (host_ip : String) (seed : Nat) :
    (ota_resumption_events host_ip seed)[6]? =
        some (Ev.expectMarker "Starting OTA..." 60) ∧
      (∃ d, (ota_resumption_events host_ip seed)[7]? = some (Ev.sleep d) ∧
        5 ≤ d ∧ d ≤ 15) ∧
      (ota_resumption_events host_ip seed)[8]? = some Ev.hardReset ∧
      (ota_resumption_events host_ip seed)[9]? = some (Ev.stopService 1) ∧
      (ota_resumption_events host_ip seed)[10]? =
        some (Ev.startService 2 "0.0.0.0" 8001) ∧
      (ota_resumption_events host_ip seed)[1]? =
        some (Ev.startService 1 "0.0.0.0" 8001) ∧
      (ota_resumption_events host_ip seed)[16]? =
        some (Ev.expectMarker "upgrade successful. Rebooting ..." 150) := by
  refine ⟨rfl, ⟨randint 5 15 seed, rfl, ?_, ?_⟩, rfl, rfl, rfl, rfl, rfl⟩ <;>
    (unfold randint; omega)
